import Mathlib

/-!
Shallow embedding of the KPIstrapi backend core:
  * `src/_archive_backend/timesheet_parser.py` (grid detection, day classifier, extractor)
  * `src/backend/kpi_calculator_improved.py` (class `KPICalculator`)
  * `src/backend/kpi_calculator.py` (legacy `calculate_kpi_for_employees`)

Python `str` values are modelled as `List Char` (`Str`), so that trimming,
lower-casing and equality are kernel-computable.  Python floats are modelled
as `ℚ`; `round(x, 2)` is modelled by `round2` (round-half-to-even, the float
rounding mode Python's `round` uses).  Fallible code returns `Except`/`Option`.
-/

/-- Python strings, modelled as lists of characters. -/
abbrev Str := List Char

/-- Whitespace test used by `str.strip()` (the characters occurring in this data). -/
def isSpc (c : Char) : Bool := c = ' ' || c = '\t' || c = '\n' || c = '\r'

/-- Model of Python `str.strip()`. -/
def sTrim (s : Str) : Str := ((s.dropWhile isSpc).reverse.dropWhile isSpc).reverse

/-- Lower-case one character: models Python `str.lower()` for the ASCII and
basic-Cyrillic alphabets that occur in this repository's data. -/
def lowerChar (c : Char) : Char :=
  if 'A' ≤ c ∧ c ≤ 'Z' then Char.ofNat (c.toNat + 32)
  else if 0x410 ≤ c.toNat ∧ c.toNat ≤ 0x42F then Char.ofNat (c.toNat + 0x20)
  else if c.toNat = 0x401 then Char.ofNat 0x451
  else c

/-- Upper-case one character: models Python `str.upper()` for the same alphabets. -/
def upperChar (c : Char) : Char :=
  if 'a' ≤ c ∧ c ≤ 'z' then Char.ofNat (c.toNat - 32)
  else if 0x430 ≤ c.toNat ∧ c.toNat ≤ 0x44F then Char.ofNat (c.toNat - 0x20)
  else if c.toNat = 0x451 then Char.ofNat 0x401
  else c

/-- Model of Python `str.lower()`. -/
def sLower (s : Str) : Str := s.map lowerChar

/-- Model of Python `str.upper()`. -/
def sUpper (s : Str) : Str := s.map upperChar

/-- Decimal digit test (`str.isdigit()` on the ASCII digits). -/
def isDigitChar (c : Char) : Bool := '0' ≤ c && c ≤ '9'

/-- Model of Python `str.isdigit()`: non-empty and all digits. -/
def isDigits (s : Str) : Bool := !s.isEmpty && s.all isDigitChar

/-- Numeric value of a digit string. -/
def digitsToNat (s : Str) : ℕ := s.foldl (fun n c => 10 * n + (c.toNat - 48)) 0

/-- Rational value of a digit string. -/
def digitsToRat (s : Str) : ℚ := (digitsToNat s : ℚ)

/-- Model of Python `float(s)` on plain decimal literals (optional sign,
digits, optional decimal point).  Exponent forms, `inf` and `nan` do not
occur in timesheet cells and are not modelled. -/
def parseDec (s : Str) : Option ℚ :=
  let core : Str → Option ℚ := fun t =>
    let intPart := t.takeWhile isDigitChar
    let rest := t.drop intPart.length
    match rest with
    | [] => if intPart.isEmpty then none else some (digitsToRat intPart)
    | '.' :: frac =>
        if frac.all isDigitChar && !(intPart.isEmpty && frac.isEmpty) then
          some (digitsToRat intPart + digitsToRat frac / (10 : ℚ) ^ frac.length)
        else none
    | _ => none
  match s with
  | '-' :: t => (core t).map (fun q => -q)
  | '+' :: t => core t
  | t => core t

/-- Model of `_try_float` from `timesheet_parser.py`: strip, comma as decimal
separator, empty means `None`; `None` (NaN cell) means `None`. -/
def tryFloat (cell : Option Str) : Option ℚ :=
  match cell with
  | none => none
  | some v =>
      let s := (sTrim v).map (fun c => if c = ',' then '.' else c)
      if s.isEmpty then none else parseDec s

/-- Round a rational to the nearest integer, ties to even — the rounding of
Python's `round` on floats. -/
def roundHalfEven (q : ℚ) : ℤ :=
  if q - ⌊q⌋ < 1/2 then ⌊q⌋
  else if 1/2 < q - ⌊q⌋ then ⌊q⌋ + 1
  else if ⌊q⌋ % 2 = 0 then ⌊q⌋ else ⌊q⌋ + 1

/-- Model of Python `round(x, 2)`. -/
def round2 (q : ℚ) : ℚ := (roundHalfEven (100 * q) : ℚ) / 100

/-! ## Day classifier (`_classify_day` in `timesheet_parser.py`) -/

/-- Day kinds returned by `_classify_day`. -/
inductive DayKind | weekday | sat | sun | holiday
deriving DecidableEq, Repr

/-- Gregorian leap-year test, as in Python's `datetime.date`. -/
def isLeapYear (y : ℤ) : Bool :=
  decide (y % 4 = 0) && (decide (y % 100 ≠ 0) || decide (y % 400 = 0))

/-- Days in the months before month `m` of a non-leap year. -/
def cumDays (m : ℤ) : ℤ :=
  if m ≤ 1 then 0 else if m = 2 then 31 else if m = 3 then 59
  else if m = 4 then 90 else if m = 5 then 120 else if m = 6 then 151
  else if m = 7 then 181 else if m = 8 then 212 else if m = 9 then 243
  else if m = 10 then 273 else if m = 11 then 304 else 334

/-- Length of month `m` of year `y`, as `datetime.date` validates it. -/
def daysInMonth (y m : ℤ) : ℤ :=
  if m = 1 ∨ m = 3 ∨ m = 5 ∨ m = 7 ∨ m = 8 ∨ m = 10 ∨ m = 12 then 31
  else if m = 4 ∨ m = 6 ∨ m = 9 ∨ m = 11 then 30
  else if m = 2 then (if isLeapYear y then 29 else 28)
  else 0

/-- Whether `date(y, m, d)` constructs without raising `ValueError`. -/
def isValidDate (y m d : ℤ) : Bool :=
  decide (1 ≤ y) && decide (y ≤ 9999) && decide (1 ≤ m) && decide (m ≤ 12) &&
    decide (1 ≤ d) && decide (d ≤ daysInMonth y m)

/-- Proleptic-Gregorian day number of (y, m, d); day 1 is 0001-01-01, a Monday. -/
def rataDie (y m d : ℤ) : ℤ :=
  365 * (y - 1) + (y - 1) / 4 - (y - 1) / 100 + (y - 1) / 400 +
    cumDays m + (if 2 < m ∧ isLeapYear y then 1 else 0) + d

/-- Model of Python `date(y, m, d).weekday()`: 0 = Monday … 6 = Sunday. -/
def pyWeekday (y m d : ℤ) : ℤ := (rataDie y m d - 1) % 7

/-- Model of `_classify_day`: holiday membership first, then the weekday; an
invalid date (the `except ValueError` branch) falls back to `weekday`. -/
def classifyDay (y m d : ℤ) (holidayDays : List ℤ) : DayKind :=
  if d ∈ holidayDays then .holiday
  else if isValidDate y m d = false then .weekday
  else if pyWeekday y m d = 5 then .sat
  else if pyWeekday y m d = 6 then .sun
  else .weekday

example : pyWeekday 2025 1 1 = 2 := by decide
example : pyWeekday 2025 3 8 = 5 := by decide
example : pyWeekday 2024 2 29 = 3 := by decide
example : pyWeekday 2025 10 12 = 6 := by decide
example : classifyDay 2025 3 8 [] = .sat := by decide
example : classifyDay 2025 3 8 [8] = .holiday := by decide
example : classifyDay 2025 4 31 [] = .weekday := by decide
example : sTrim "  ab ".data = "ab".data := by decide
example : sLower "AbЖ".data = "abж".data := by decide
example : (tryFloat (some "  12,5 ".data)).isSome = true := by decide
example : tryFloat (some " - ".data) = none := by decide
example : tryFloat (some "abc".data) = none := by decide
example : tryFloat none = none := by decide

/-! ## Data model of the KPI calculators -/

/-- Attendance record of one employee, as produced by the timesheet parser
(dataclass `EmployeeData` in `kpi_calculator_improved.py`; the same dict shape
feeds the legacy calculator). -/
structure EmployeeData where
  fio : Str
  letters_weekday : ℕ := 0
  letters_sat : ℕ := 0
  letters_sun : ℕ := 0
  letters_holiday : ℕ := 0
  numbers_weekday : ℕ := 0
  numbers_sat : ℕ := 0
  numbers_sun : ℕ := 0
  numbers_holiday : ℕ := 0
  worked_days_total : Option ℚ := none
deriving DecidableEq, Repr

/-- One row of the KPI roster table (`kpi_table` item dict), before the
per-calculator normalisation. -/
structure KpiRow where
  id : ℤ := 0
  fio : Str
  kpiSum : ℚ := 0
  scheduleType : Str := []
  department : Str := []
  categoryCode : Str := []
deriving DecidableEq, Repr

/-- Normalised roster entry (dataclass `KPIInfo` in `kpi_calculator_improved.py`). -/
structure KPIInfo where
  id : ℤ
  fio : Str
  kpi_sum : ℚ
  schedule_type : Str
  department : Str
  category_code : Str
deriving DecidableEq, Repr

/-- Result row (dataclass `KPIResult` in `kpi_calculator_improved.py`). -/
structure KPIResult where
  fio : Str
  schedule_type : Str
  days_assigned : ℤ
  days_worked : ℚ
  not_worked : ℚ
  letters_weekday : ℕ
  letters_sat : ℕ
  letters_sun : ℕ
  letters_holiday : ℕ
  numbers_weekday : ℕ
  numbers_sat : ℕ
  numbers_sun : ℕ
  numbers_holiday : ℕ
  work_percent : ℚ
  kpi_sum : ℚ
  kpi_final : ℚ
  department : Str
  category_code : Str
deriving DecidableEq, Repr

/-- Error row (dataclass `KPIError`; the legacy calculator emits the same
dict shape `{fio, type, details}`). -/
structure KPIError where
  fio : Str
  type : Str
  details : Str
deriving DecidableEq, Repr

/-- Association-list insert with overwrite: models `dict.__setitem__`. -/
def alistInsert {α : Type} (m : List (Str × α)) (k : Str) (v : α) : List (Str × α) :=
  match m with
  | [] => [(k, v)]
  | (k', v') :: rest => if k' = k then (k, v) :: rest else (k', v') :: alistInsert rest k v

/-- Association-list lookup: models `dict.get`. -/
def alistGet {α : Type} (m : List (Str × α)) (k : Str) : Option α :=
  match m with
  | [] => none
  | (k', v) :: rest => if k' = k then some v else alistGet rest k

/-! ## Improved calculator (`KPICalculator` in `kpi_calculator_improved.py`) -/

/-- Normalisation of one roster row, as in `KPICalculator._build_kpi_map`:
names and codes are stripped, `scheduleType` is stripped, lower-cased and
defaulted to `"day"` when blank. -/
def mkKPIInfo (item : KpiRow) : KPIInfo :=
  { id := item.id
    fio := sTrim item.fio
    kpi_sum := item.kpiSum
    schedule_type := (let s := sLower (sTrim item.scheduleType); if s.isEmpty then "day".data else s)
    department := sTrim item.department
    category_code := sTrim item.categoryCode }

/-- Model of `KPICalculator._build_kpi_map`: name → entry, case-insensitive
trimmed keys, blank names skipped, later rows overwrite earlier ones. -/
def buildKpiMap (kpi_table : List KpiRow) : List (Str × KPIInfo) :=
  kpi_table.foldl
    (fun m item =>
      let fio := sTrim item.fio
      if fio.isEmpty then m else alistInsert m (sLower fio) (mkKPIInfo item))
    []

/-- Body of `KPICalculator._calculate_day_kpi` past its `days_assigned <= 0`
guard. -/
def dayKpiResult (emp : EmployeeData) (kpi_info : KPIInfo) (days_assigned : ℤ) :
    KPIResult :=
    let not_worked : ℚ := emp.letters_weekday
    let days_worked0 : ℚ :=
      match emp.worked_days_total with
      | some v => v
      | none => (days_assigned : ℚ) - not_worked
    let days_worked : ℚ := max 0 (min days_worked0 (days_assigned : ℚ))
    let work_percent0 : ℚ :=
      if 0 < days_assigned then days_worked * 100 / (days_assigned : ℚ) else 0
    let work_percent : ℚ := max 0 (min 100 work_percent0)
    let kpi_final : ℚ := work_percent / 100 * kpi_info.kpi_sum
    { fio := emp.fio
      schedule_type := "day".data
      days_assigned := days_assigned
      days_worked := round2 days_worked
      not_worked := max ((days_assigned : ℚ) - days_worked) 0
      letters_weekday := emp.letters_weekday
      letters_sat := emp.letters_sat
      letters_sun := emp.letters_sun
      letters_holiday := emp.letters_holiday
      numbers_weekday := emp.numbers_weekday
      numbers_sat := emp.numbers_sat
      numbers_sun := emp.numbers_sun
      numbers_holiday := emp.numbers_holiday
      work_percent := round2 work_percent
      kpi_sum := kpi_info.kpi_sum
      kpi_final := round2 kpi_final
      department := kpi_info.department
      category_code := kpi_info.category_code }

/-- Model of `KPICalculator._calculate_day_kpi`. -/
def calcDayKpi (emp : EmployeeData) (kpi_info : KPIInfo) (days_assigned : ℤ) :
    Option KPIResult :=
  if days_assigned ≤ 0 then none else some (dayKpiResult emp kpi_info days_assigned)

/-- Body of `KPICalculator._calculate_shift_kpi` past its `days_assigned <= 0`
guard. -/
def shiftKpiResult (emp : EmployeeData) (kpi_info : KPIInfo) (days_assigned : ℤ) :
    KPIResult :=
    let effective_not_worked : ℚ := (emp.letters_weekday : ℚ) + (emp.letters_sat : ℚ)
    let days_worked : ℚ :=
      max 0 (min ((days_assigned : ℚ) - effective_not_worked) (days_assigned : ℚ))
    let work_percent0 : ℚ :=
      if 0 < days_assigned then days_worked * 100 / (days_assigned : ℚ) else 0
    let work_percent : ℚ := max 0 (min 100 work_percent0)
    let kpi_final : ℚ := work_percent / 100 * kpi_info.kpi_sum
    { fio := emp.fio
      schedule_type := "shift".data
      days_assigned := days_assigned
      days_worked := round2 days_worked
      not_worked := effective_not_worked
      letters_weekday := emp.letters_weekday
      letters_sat := emp.letters_sat
      letters_sun := emp.letters_sun
      letters_holiday := emp.letters_holiday
      numbers_weekday := emp.numbers_weekday
      numbers_sat := emp.numbers_sat
      numbers_sun := emp.numbers_sun
      numbers_holiday := emp.numbers_holiday
      work_percent := round2 work_percent
      kpi_sum := kpi_info.kpi_sum
      kpi_final := round2 kpi_final
      department := kpi_info.department
      category_code := kpi_info.category_code }

/-- Model of `KPICalculator._calculate_shift_kpi`. -/
def calcShiftKpi (emp : EmployeeData) (kpi_info : KPIInfo) (days_assigned : ℤ) :
    Option KPIResult :=
  if days_assigned ≤ 0 then none else some (shiftKpiResult emp kpi_info days_assigned)

/-- Outcome of one iteration of the loop body of `KPICalculator.calculate`
for one record: append a result, append an error, or fall through. -/
inductive CalcStep
  | res : KPIResult → CalcStep
  | err : KPIError → CalcStep
  | skip : CalcStep
deriving DecidableEq, Repr

/-- One iteration of the loop body of `KPICalculator.calculate`, together
with the updated `seen_fios` set (modelled as a list of keys). -/
def improvedStep (kpiMap : List (Str × KPIInfo)) (nch_day nd_shift : ℤ)
    (seen : List Str) (emp : EmployeeData) : CalcStep × List Str :=
  let fio := sTrim emp.fio
  if fio.isEmpty then (.skip, seen)
  else
    let key := sLower fio
    if key ∈ seen then
      (.err ⟨fio, "DUPLICATE".data, "ФИО повторяется в табеле".data⟩, seen)
    else
      let seen2 := key :: seen
      match alistGet kpiMap key with
      | none => (.err ⟨fio, "NO_KPI_MAPPING".data, "Нет записи в KPI таблице".data⟩, seen2)
      | some kpi_info =>
          if sTrim kpi_info.category_code = "4".data then
            (.err ⟨fio, "STUDENT".data, "CategoryCode = 4 (студент), KPI не считается".data⟩, seen2)
          else
            match
              (if sLower kpi_info.schedule_type = "day".data then
                calcDayKpi emp kpi_info nch_day
              else calcShiftKpi emp kpi_info nd_shift) with
            | some r => (.res r, seen2)
            | none => (.skip, seen2)

/-- The loop of `KPICalculator.calculate`, threading `seen_fios` and
collecting results and errors in input order. -/
def improvedGo (kpiMap : List (Str × KPIInfo)) (nch_day nd_shift : ℤ) :
    List EmployeeData → List Str → List KPIResult × List KPIError
  | [], _ => ([], [])
  | emp :: rest, seen =>
    match improvedStep kpiMap nch_day nd_shift seen emp with
    | (.res r, seen2) =>
        let p := improvedGo kpiMap nch_day nd_shift rest seen2
        (r :: p.1, p.2)
    | (.err e, seen2) =>
        let p := improvedGo kpiMap nch_day nd_shift rest seen2
        (p.1, e :: p.2)
    | (.skip, seen2) => improvedGo kpiMap nch_day nd_shift rest seen2

/-- Model of `KPICalculator.calculate`. -/
def calculate (employees : List EmployeeData) (kpi_table : List KpiRow)
    (nch_day nd_shift : ℤ) : List KPIResult × List KPIError :=
  improvedGo (buildKpiMap kpi_table) nch_day nd_shift employees []

/-! ## Legacy calculator (`calculate_kpi_for_employees` in `kpi_calculator.py`) -/

/-- Result dict appended by the legacy calculator. -/
structure LegacyResult where
  fio : Str
  scheduleType : Str
  daysAssigned : ℤ
  daysWorked : ℚ
  notWorked : ℚ
  lettersWeekday : ℕ
  lettersSat : ℕ
  lettersSun : ℕ
  lettersHoliday : ℕ
  numbersWeekday : ℕ
  numbersSat : ℕ
  numbersSun : ℕ
  numbersHoliday : ℕ
  workPercent : ℚ
  kpiSum : ℚ
  kpiFinal : ℚ
deriving DecidableEq, Repr

/-- The legacy name → roster-row map (`kpi_map` built at the top of
`calculate_kpi_for_employees`). -/
def legacyKpiMap (kpi_table : List KpiRow) : List (Str × KpiRow) :=
  kpi_table.foldl
    (fun m item =>
      let key := sLower (sTrim item.fio)
      if key.isEmpty then m else alistInsert m key item)
    []

/-- Legacy schedule-type resolution: strip, lower-case, and fall back to
`"day"` for anything other than `"day"`/`"shift"`. -/
def legacySchedule (s : Str) : Str :=
  let t := sLower (sTrim s)
  if t = "day".data ∨ t = "shift".data then t else "day".data

/-- Day branch of the legacy calculator (`schedule_type == "day"`,
`days_assigned > 0` already checked by the caller). -/
def legacyDayResult (emp : EmployeeData) (fio : Str) (kpi_sum : ℚ)
    (days_assigned : ℤ) : LegacyResult :=
  let not_worked : ℚ := emp.letters_weekday
  let fv0 : ℚ :=
    match emp.worked_days_total with
    | some v => v
    | none => (days_assigned : ℚ) - not_worked
  let fv1 : ℚ := if fv0 < 0 then 0 else fv0
  let fv : ℚ := if (days_assigned : ℚ) < fv1 then (days_assigned : ℚ) else fv1
  let wp0 : ℚ := if 0 < days_assigned then fv * 100 / (days_assigned : ℚ) else 0
  let wp1 : ℚ := if 100 < wp0 then 100 else wp0
  let wp : ℚ := if wp1 < 0 then 0 else wp1
  let kf : ℚ := wp / 100 * kpi_sum
  { fio := fio
    scheduleType := "day".data
    daysAssigned := days_assigned
    daysWorked := fv
    notWorked := max ((days_assigned : ℚ) - fv) 0
    lettersWeekday := emp.letters_weekday
    lettersSat := emp.letters_sat
    lettersSun := emp.letters_sun
    lettersHoliday := emp.letters_holiday
    numbersWeekday := emp.numbers_weekday
    numbersSat := emp.numbers_sat
    numbersSun := emp.numbers_sun
    numbersHoliday := emp.numbers_holiday
    workPercent := round2 wp
    kpiSum := kpi_sum
    kpiFinal := round2 kf }

/-- Shift branch of the legacy calculator (`days_assigned > 0` already
checked by the caller). -/
def legacyShiftResult (emp : EmployeeData) (fio : Str) (kpi_sum : ℚ)
    (days_assigned : ℤ) : LegacyResult :=
  let effective_not_worked : ℚ := (emp.letters_weekday : ℚ) + (emp.letters_sat : ℚ)
  let wr0 : ℚ := (days_assigned : ℚ) - effective_not_worked
  let wr1 : ℚ := if wr0 < 0 then 0 else wr0
  let wr : ℚ := if (days_assigned : ℚ) < wr1 then (days_assigned : ℚ) else wr1
  let wp0 : ℚ := if 0 < days_assigned then wr * 100 / (days_assigned : ℚ) else 0
  let wp1 : ℚ := if 100 < wp0 then 100 else wp0
  let wp : ℚ := if wp1 < 0 then 0 else wp1
  let kf : ℚ := wp / 100 * kpi_sum
  { fio := fio
    scheduleType := "shift".data
    daysAssigned := days_assigned
    daysWorked := wr
    notWorked := effective_not_worked
    lettersWeekday := emp.letters_weekday
    lettersSat := emp.letters_sat
    lettersSun := emp.letters_sun
    lettersHoliday := emp.letters_holiday
    numbersWeekday := emp.numbers_weekday
    numbersSat := emp.numbers_sat
    numbersSun := emp.numbers_sun
    numbersHoliday := emp.numbers_holiday
    workPercent := round2 wp
    kpiSum := kpi_sum
    kpiFinal := round2 kf }

/-- Outcome of one iteration of the legacy loop body. -/
inductive LegacyStep
  | res : LegacyResult → LegacyStep
  | err : KPIError → LegacyStep
  | skip : LegacyStep
deriving DecidableEq, Repr

/-- One iteration of the legacy loop body, with the updated `seen` set. -/
def legacyStep (kpiMap : List (Str × KpiRow)) (nch_day nd_shift : ℤ)
    (seen : List Str) (emp : EmployeeData) : LegacyStep × List Str :=
  let fio := sTrim emp.fio
  if fio.isEmpty then (.skip, seen)
  else
    let key := sLower fio
    if key ∈ seen then
      (.err ⟨fio, "DUPLICATE".data, "ФИО повторяется в табеле".data⟩, seen)
    else
      let seen2 := key :: seen
      match alistGet kpiMap key with
      | none => (.err ⟨fio, "NO_KPI_MAPPING".data, "Нет записи в KPI таблице".data⟩, seen2)
      | some item =>
          if sTrim item.categoryCode = "4".data then
            (.err ⟨fio, "STUDENT".data, "CategoryCode = 4 (студент), KPI не считается".data⟩, seen2)
          else
            let schedule_type := legacySchedule item.scheduleType
            let kpi_sum := item.kpiSum
            if schedule_type = "day".data then
              if nch_day ≤ 0 then
                (.err ⟨fio, "INVALID_PLAN".data, "Н.ч (назначено дней) <= 0".data⟩, seen2)
              else (.res (legacyDayResult emp fio kpi_sum nch_day), seen2)
            else
              if nd_shift ≤ 0 then
                (.err ⟨fio, "INVALID_PLAN".data, "Н.д (назначено суточных) <= 0".data⟩, seen2)
              else (.res (legacyShiftResult emp fio kpi_sum nd_shift), seen2)

/-- The legacy processing loop. -/
def legacyGo (kpiMap : List (Str × KpiRow)) (nch_day nd_shift : ℤ) :
    List EmployeeData → List Str → List LegacyResult × List KPIError
  | [], _ => ([], [])
  | emp :: rest, seen =>
    match legacyStep kpiMap nch_day nd_shift seen emp with
    | (.res r, seen2) =>
        let p := legacyGo kpiMap nch_day nd_shift rest seen2
        (r :: p.1, p.2)
    | (.err e, seen2) =>
        let p := legacyGo kpiMap nch_day nd_shift rest seen2
        (p.1, e :: p.2)
    | (.skip, seen2) => legacyGo kpiMap nch_day nd_shift rest seen2

/-- Model of the legacy `calculate_kpi_for_employees`. -/
def legacyCalculate (employees : List EmployeeData) (kpi_table : List KpiRow)
    (nch_day nd_shift : ℤ) : List LegacyResult × List KPIError :=
  legacyGo (legacyKpiMap kpi_table) nch_day nd_shift employees []

/-! ## Timesheet parser front-end (`parse_timesheet_from_excel` in
`src/_archive_backend/timesheet_parser.py`).  The raw spreadsheet is
modelled as a grid of cells; a cell is `none` for a NaN/empty cell and
`some s` for a cell whose string rendering is `s`.  The holiday input is
taken after `_normalize_holidays`, as a list of day numbers. -/

/-- One spreadsheet cell. -/
abbrev Cell := Option Str

/-- A raw grid, as `pd.read_excel(file, header=None)` delivers it. -/
abbrev Grid := List (List Cell)

/-- Python `str(v)` of a cell: a NaN renders as `"nan"`. -/
def cellStr (c : Cell) : Str :=
  match c with
  | none => "nan".data
  | some s => s

/-- The LayoutA marker cell (`АТЫ-жөні (толығымен)`). -/
def kzHeaderName : Str := "АТЫ-жөні (толығымен)".data

/-- The LayoutA total-days marker cell. -/
def totalDaysName : Str := "өтелген күндер жиынтығы".data

/-- The LayoutB employee column label. -/
def employeeColName : Str := "Сотрудник".data

/-- Model of `_has_kz_header`. -/
def hasKzHeader (g : Grid) : Bool :=
  g.any (fun row => row.any (fun v => decide (sTrim (cellStr v) = kzHeaderName)))

/-- Model of `_find_cell`: first (row, column) among the given row indices
whose cell is a string equal (stripped, lower-cased) to the target. -/
def findCell (g : Grid) (text : Str) (rows : List ℕ) : Option (ℕ × ℕ) :=
  match rows with
  | [] => none
  | r :: rest =>
      match (g.getD r []).findIdx?
          (fun v =>
            match v with
            | some s => decide (sLower (sTrim s) = sLower (sTrim text))
            | none => false) with
      | some c => some (r, c)
      | none => findCell g text rest

/-- Count one day cell into the eight counters of a record under
construction, as the inner loop of `_parse_kz_template` /
`_parse_simple_template` does. -/
def countCell (y m : ℤ) (holidayDays : List ℤ) (rec : EmployeeData)
    (val : Cell) (day_num : ℤ) : EmployeeData :=
  match val with
  | none => rec
  | some v =>
      let val_str := sTrim v
      if val_str.isEmpty || decide (val_str = "-".data) || decide (sUpper val_str = "В".data) then
        rec
      else
        let day_type := classifyDay y m day_num holidayDays
        let is_number := (tryFloat (some val_str)).isSome
        if is_number then
          match day_type with
          | .weekday => { rec with numbers_weekday := rec.numbers_weekday + 1 }
          | .sat => { rec with numbers_sat := rec.numbers_sat + 1 }
          | .sun => { rec with numbers_sun := rec.numbers_sun + 1 }
          | .holiday => { rec with numbers_holiday := rec.numbers_holiday + 1 }
        else
          match day_type with
          | .weekday => { rec with letters_weekday := rec.letters_weekday + 1 }
          | .sat => { rec with letters_sat := rec.letters_sat + 1 }
          | .sun => { rec with letters_sun := rec.letters_sun + 1 }
          | .holiday => { rec with letters_holiday := rec.letters_holiday + 1 }

/-- Process one employee row of the KZ template: `none` when the row is
skipped (blank name or repeated header). -/
def kzRowRecord (y m : ℤ) (holidayDays : List ℤ) (dayCols : List (ℕ × ℤ))
    (fioCol : ℕ) (totalCol : Option ℕ) (row : List Cell) : Option EmployeeData :=
  match row.getD fioCol none with
  | none => none
  | some fioRaw =>
      let fio := sTrim fioRaw
      if fio.isEmpty || decide (fio = kzHeaderName) then none
      else
        let base := dayCols.foldl
          (fun rec cd => countCell y m holidayDays rec (row.getD cd.1 none) cd.2)
          { fio := fio }
        some
          { base with
            worked_days_total :=
              match totalCol with
              | none => none
              | some c => tryFloat (row.getD c none) }

/-- Model of `_parse_kz_template`. -/
def parseKz (g : Grid) (y m : ℤ) (holidayDays : List ℤ) :
    Except Str (List EmployeeData) :=
  match g.findIdx? (fun row => row.any (fun v => decide (sTrim (cellStr v) = kzHeaderName))) with
  | none => .error "Не найден заголовок в табеле.".data
  | some header_row_idx =>
      match (g.getD header_row_idx []).findIdx?
          (fun v => decide (sTrim (cellStr v) = kzHeaderName)) with
      | none => .error "Не удалось определить колонку с ФИО.".data
      | some fio_col =>
          if g.length ≤ header_row_idx + 1 then
            .error "В табеле нет строки с днями после заголовка.".data
          else
            let day_header := g.getD (header_row_idx + 1) []
            let day_cols : List (ℕ × ℤ) :=
              day_header.enum.filterMap
                (fun cv =>
                  let s := sTrim (cellStr cv.2)
                  if isDigits s then some (cv.1, (digitsToNat s : ℤ)) else none)
            let total_days_col : Option ℕ :=
              (findCell g totalDaysName
                  (List.range' (header_row_idx - 2)
                    (header_row_idx + 5 - (header_row_idx - 2)))).map (·.2)
            .ok
              ((List.range' (header_row_idx + 2) (g.length - (header_row_idx + 2))).filterMap
                (fun i => kzRowRecord y m holidayDays day_cols fio_col total_days_col (g.getD i [])))

/-- Process one employee row of the flat template. -/
def simpleRowRecord (y m : ℤ) (holidayDays : List ℤ) (dayCols : List (ℕ × ℤ))
    (fioCol : Option ℕ) (row : List Cell) : Option EmployeeData :=
  let fio :=
    match fioCol with
    | none => []
    | some c => sTrim (cellStr (row.getD c none))
  if fio.isEmpty then none
  else
    some
      (dayCols.foldl
        (fun rec cd => countCell y m holidayDays rec (row.getD cd.1 none) cd.2)
        { fio := fio })

/-- Model of `_parse_simple_template`: the first grid row is the header row,
day columns are the `"01"`..`"31"` labelled ones, `workedDaysTotal` is never
set for this layout. -/
def parseSimple (g : Grid) (y m : ℤ) (holidayDays : List ℤ) : List EmployeeData :=
  let cols := (g.headD []).map cellStr
  let day_cols : List (ℕ × ℤ) :=
    cols.enum.filterMap
      (fun cs =>
        if cs.2.length = 2 && isDigits cs.2 then some (cs.1, (digitsToNat cs.2 : ℤ)) else none)
  let fio_col := cols.findIdx? (fun s => decide (s = employeeColName))
  (g.drop 1).filterMap (simpleRowRecord y m holidayDays day_cols fio_col)

/-- Model of `parse_timesheet_from_excel` after holiday normalisation: KZ
layout detection first, then the flat layout keyed on a `Сотрудник` column
in the first row, otherwise the terminal detection error. -/
def parseTimesheet (g : Grid) (y m : ℤ) (holidayDays : List ℤ) :
    Except Str (List EmployeeData) :=
  if hasKzHeader g then parseKz g y m holidayDays
  else if employeeColName ∈ (g.headD []).map cellStr then
    .ok (parseSimple g y m holidayDays)
  else
    .error "Не удалось определить формат табеля. Нет ни заголовка АТЫ-жөні (толығымен), ни колонки Сотрудник.".data

/-! ## Concrete data used by witnesses and counterexamples -/

/-- Concrete grid with neither detection signal. -/
def gridNoSignal : Grid := [[some "x".data, none], [some "1".data]]

/-- Shift-branch witness data: 4 Sunday letters, nothing else. -/
def empSunday : EmployeeData :=
  { fio := "A".data, letters_sun := 4 }

/-- Roster entry used by the shift-branch witnesses. -/
def infoShift : KPIInfo :=
  ⟨1, "A".data, 100, "shift".data, [], []⟩

/-- Shift-overflow witness data: 20 weekday letters and 15 Saturday letters
against a norm of 30. -/
def empOverflow : EmployeeData :=
  { fio := "A".data, letters_weekday := 20, letters_sat := 15 }

/-- Day-branch data for the C1 counterexample and witness: 2 weekday
letters, no override, norm 22, `kpiSum = 15000`. -/
def empTwoLetters : EmployeeData :=
  { fio := "A".data, letters_weekday := 2 }

/-- Roster entry with `kpiSum = 15000`, day schedule. -/
def infoDay15000 : KPIInfo :=
  ⟨1, "A".data, 15000, "day".data, [], []⟩

/-- Day-branch data for the C3 counterexample: override value `20.001`. -/
def empOverrideFrac : EmployeeData :=
  { fio := "A".data, letters_weekday := 5, worked_days_total := some (20001/1000) }

/-- Plain day roster entry with `kpiSum = 1000`. -/
def infoDayPlain : KPIInfo :=
  ⟨1, "A".data, 1000, "day".data, [], []⟩

/-- Day-branch data for the C3 witness: override value 20 against
`dayNorm = 22` and 5 weekday letters. -/
def empOverride20 : EmployeeData :=
  { fio := "A".data, letters_weekday := 5, worked_days_total := some 20 }

/-- Data used by several concrete runs: one plain employee named `A`. -/
def empPlain : EmployeeData := { fio := "A".data }

/-- Day-schedule roster row for employee `A`. -/
def rowDay : KpiRow := ⟨1, "A".data, 100, "day".data, [], []⟩

/-- Roster row with the unrecognized schedule type `"x"`. -/
def rowUnrecognized : KpiRow := ⟨1, "A".data, 100, "x".data, [], []⟩

/-- Dedup key of a result row: its name, trimmed and lower-cased. -/
def resKey (r : KPIResult) : Str := sLower (sTrim r.fio)

/-- Dedup key of an error row: its name lower-cased (error rows are emitted
with the name already trimmed). -/
def errKey (e : KPIError) : Str := sLower e.fio

/-- The same employee name, lower-cased, as a second attendance record. -/
def empPlainLower : EmployeeData := { fio := "a".data }

/-! ## Helper lemmas about the rounding model -/

theorem roundHalfEven_nonneg (q : ℚ) (h : 0 ≤ q) : 0 ≤ roundHalfEven q := by
  have hf : (0 : ℤ) ≤ ⌊q⌋ := Int.le_floor.mpr (by exact_mod_cast h)
  unfold roundHalfEven
  split_ifs <;> omega

theorem roundHalfEven_le_of_le (q : ℚ) (B : ℤ) (h : q ≤ (B : ℚ)) :
    roundHalfEven q ≤ B := by
  have hf : ⌊q⌋ ≤ B := by
    have h2 := Int.floor_le_floor h
    rwa [Int.floor_intCast] at h2
  have hlow : (⌊q⌋ : ℚ) ≤ q := Int.floor_le q
  unfold roundHalfEven
  split_ifs with h1 h2 h3
  · exact hf
  · have hlt : (⌊q⌋ : ℚ) < (B : ℚ) := by linarith
    have : ⌊q⌋ < B := by exact_mod_cast hlt
    omega
  · exact hf
  · have hge : (1 : ℚ)/2 ≤ q - ⌊q⌋ := le_of_not_lt h1
    have hlt : (⌊q⌋ : ℚ) < (B : ℚ) := by linarith
    have : ⌊q⌋ < B := by exact_mod_cast hlt
    omega

theorem roundHalfEven_intCast (z : ℤ) : roundHalfEven (z : ℚ) = z := by
  unfold roundHalfEven
  rw [Int.floor_intCast]
  norm_num

theorem round2_intCast (z : ℤ) : round2 (z : ℚ) = (z : ℚ) := by
  unfold round2
  have h : (100 : ℚ) * z = ((100 * z : ℤ) : ℚ) := by push_cast; ring
  rw [h, roundHalfEven_intCast]
  push_cast
  ring

theorem round2_nonneg (q : ℚ) (h : 0 ≤ q) : 0 ≤ round2 q := by
  unfold round2
  have h1 : (0 : ℤ) ≤ roundHalfEven (100 * q) :=
    roundHalfEven_nonneg _ (by positivity)
  have h2 : (0 : ℚ) ≤ (roundHalfEven (100 * q) : ℚ) := by exact_mod_cast h1
  positivity

theorem round2_le_100 (q : ℚ) (h : q ≤ 100) : round2 q ≤ 100 := by
  unfold round2
  have h1 : roundHalfEven (100 * q) ≤ (10000 : ℤ) :=
    roundHalfEven_le_of_le _ _ (by push_cast; linarith)
  have h2 : (roundHalfEven (100 * q) : ℚ) ≤ 10000 := by exact_mod_cast h1
  rw [div_le_iff₀ (by norm_num : (0:ℚ) < 100)]
  linarith

example : round2 ((9091/100 : ℚ)/100 * 15000) = 27273/2 := by
  norm_num [round2, roundHalfEven]

example :
    (dayKpiResult ⟨"A".data, 2, 0, 0, 0, 0, 0, 0, 0, none⟩
        ⟨0, "A".data, 15000, "day".data, [], []⟩ 22).work_percent = 9091/100 := by
  simp only [dayKpiResult]
  norm_num [round2, roundHalfEven, min_def, max_def]

example :
    (dayKpiResult ⟨"A".data, 2, 0, 0, 0, 0, 0, 0, 0, none⟩
        ⟨0, "A".data, 15000, "day".data, [], []⟩ 22).kpi_final = 1363636/100 := by
  simp only [dayKpiResult]
  norm_num [round2, roundHalfEven, min_def, max_def]

/-! ## Claim theorems -/

/-- C8: for every valid calendar date whose day number is in the holiday
set, `_classify_day` returns `holiday`, even when the date falls on a
calendar Saturday or Sunday — the holiday test precedes the weekday
computation. -/
theorem classifyDay_holiday_precedence (y m d : ℤ) (hs : List ℤ)
    (hvalid : isValidDate y m d = true) (hmem : d ∈ hs) :
    classifyDay y m d hs = .holiday := by
  unfold classifyDay
  rw [if_pos hmem]

/-- Witness for C8: 2025-03-08 is a calendar Saturday, yet with 8 in the
holiday set it classifies as `holiday`. -/
theorem classifyDay_holiday_precedence_witness :
    isValidDate 2025 3 8 = true ∧ (8 : ℤ) ∈ [(8 : ℤ)] ∧
    pyWeekday 2025 3 8 = 5 ∧ classifyDay 2025 3 8 [] = .sat ∧
    classifyDay 2025 3 8 [8] = .holiday :=
  ⟨by decide, by decide, by decide, by decide,
    classifyDay_holiday_precedence 2025 3 8 [8] (by decide) (by decide)⟩

/-- C9: for a (year, month, day) triple that is not a valid calendar date
and whose day is not in the holiday set, `_classify_day` returns `weekday`
(the `except ValueError` fallback); being a total function, the embedding
cannot raise. -/
theorem classifyDay_invalid_date_weekday (y m d : ℤ) (hs : List ℤ)
    (hinvalid : isValidDate y m d = false) (hmem : d ∉ hs) :
    classifyDay y m d hs = .weekday := by
  unfold classifyDay
  rw [if_neg hmem, if_pos hinvalid]

/-- Witness for C9: day 31 of the 30-day month 2025-04 classifies as
`weekday`. -/
theorem classifyDay_invalid_date_weekday_witness :
    isValidDate 2025 4 31 = false ∧ (31 : ℤ) ∉ ([] : List ℤ) ∧
    classifyDay 2025 4 31 [] = .weekday :=
  ⟨by decide, by decide,
    classifyDay_invalid_date_weekday 2025 4 31 [] (by decide) (by decide)⟩

/-- C7: when the grid has no LayoutA marker cell anywhere and the first row
(the header row of the re-read) has no employee column, parsing fails with
the single descriptive detection error and produces no records.  The
`Except.error` result carries no partial records by construction. -/
theorem parseTimesheet_detection_failure (g : Grid) (y m : ℤ) (hs : List ℤ)
    (h1 : hasKzHeader g = false)
    (h2 : employeeColName ∉ (g.headD []).map cellStr) :
    parseTimesheet g y m hs =
      .error "Не удалось определить формат табеля. Нет ни заголовка АТЫ-жөні (толығымен), ни колонки Сотрудник.".data := by
  unfold parseTimesheet
  rw [if_neg (by simp [h1]), if_neg h2]



/-- Witness for C7: the two-cell grid `gridNoSignal` has neither signal and
parsing it yields exactly the detection error. -/
theorem parseTimesheet_detection_failure_witness :
    hasKzHeader gridNoSignal = false ∧
    employeeColName ∉ (gridNoSignal.headD []).map cellStr ∧
    parseTimesheet gridNoSignal 2025 1 [] =
      .error "Не удалось определить формат табеля. Нет ни заголовка АТЫ-жөні (толығымен), ни колонки Сотрудник.".data :=
  ⟨by decide, by decide,
    parseTimesheet_detection_failure gridNoSignal 2025 1 [] (by decide) (by decide)⟩

/-- C2: in the shift branch the absence count is
`lettersWeekday + lettersSaturday` (Sunday and holiday letters never reduce
the result), the reported `daysWorked` is the clamp
`clamp(shiftNorm − absenceCount, 0, shiftNorm)`, the `totalDaysWorked`
override is not applied, and the reported `notWorked` is the absence count
itself. -/
theorem shift_branch_absence_rules (emp : EmployeeData) (kpi_info : KPIInfo)
    (n : ℤ) (res : KPIResult) (h : calcShiftKpi emp kpi_info n = some res) :
    res.not_worked = (emp.letters_weekday : ℚ) + (emp.letters_sat : ℚ) ∧
    res.days_worked =
      max 0 (min ((n : ℚ) - ((emp.letters_weekday : ℚ) + (emp.letters_sat : ℚ))) (n : ℚ)) ∧
    (∀ x : Option ℚ,
      calcShiftKpi { emp with worked_days_total := x } kpi_info n =
        calcShiftKpi emp kpi_info n) := by
  by_cases hn : n ≤ 0
  · simp [calcShiftKpi, hn] at h
  · rw [calcShiftKpi, if_neg hn] at h
    obtain rfl : shiftKpiResult emp kpi_info n = res := Option.some.inj h
    refine ⟨rfl, ?_, fun x => rfl⟩
    show round2 (max 0 (min ((n : ℚ) - ((emp.letters_weekday : ℚ) + (emp.letters_sat : ℚ))) (n : ℚ))) = _
    have hcast :
        max 0 (min ((n : ℚ) - ((emp.letters_weekday : ℚ) + (emp.letters_sat : ℚ))) (n : ℚ)) =
          ((max 0 (min (n - ((emp.letters_weekday : ℤ) + (emp.letters_sat : ℤ))) n) : ℤ) : ℚ) := by
      push_cast
      ring_nf
    rw [hcast, round2_intCast]





/-- Witness for C2: with `shiftNorm = 30`, `lettersSunday = 4` and no
weekday/Saturday letters, the emitted result reports `daysWorked = 30` and
`notWorked = 0`. -/
theorem shift_branch_absence_rules_witness :
    (shiftKpiResult empSunday infoShift 30).days_worked = 30 ∧
    (shiftKpiResult empSunday infoShift 30).not_worked = 0 := by
  obtain ⟨h1, h2, -⟩ :=
    shift_branch_absence_rules empSunday infoShift 30 (shiftKpiResult empSunday infoShift 30)
      (by norm_num [calcShiftKpi])
  refine ⟨?_, ?_⟩
  · rw [h2]; norm_num [empSunday]
  · rw [h1]; norm_num [empSunday]

/-- C10: in the shift branch, when `lettersWeekday + lettersSaturday`
exceeds a positive `shiftNorm`, the emitted result has `daysWorked = 0`,
`workPercent = 0`, `kpiFinal = 0`, and `notWorked` equal to the letter sum —
strictly greater than `daysAssigned`, hence not equal to
`daysAssigned − daysWorked`. -/
theorem shift_branch_overflow (emp : EmployeeData) (kpi_info : KPIInfo)
    (n : ℤ) (res : KPIResult) (h : calcShiftKpi emp kpi_info n = some res)
    (hover : n < (emp.letters_weekday : ℤ) + (emp.letters_sat : ℤ)) :
    res.days_worked = 0 ∧ res.work_percent = 0 ∧ res.kpi_final = 0 ∧
    res.not_worked = (emp.letters_weekday : ℚ) + (emp.letters_sat : ℚ) ∧
    (res.days_assigned : ℚ) < res.not_worked ∧
    res.not_worked ≠ (res.days_assigned : ℚ) - res.days_worked := by
  by_cases hn : n ≤ 0
  · simp [calcShiftKpi, hn] at h
  · rw [calcShiftKpi, if_neg hn] at h
    obtain rfl : shiftKpiResult emp kpi_info n = res := Option.some.inj h
    have hoverQ : (n : ℚ) < (emp.letters_weekday : ℚ) + (emp.letters_sat : ℚ) := by
      exact_mod_cast hover
    have henw : (0 : ℚ) ≤ (emp.letters_weekday : ℚ) + (emp.letters_sat : ℚ) := by positivity
    have hmin :
        min ((n : ℚ) - ((emp.letters_weekday : ℚ) + (emp.letters_sat : ℚ))) (n : ℚ) =
          (n : ℚ) - ((emp.letters_weekday : ℚ) + (emp.letters_sat : ℚ)) :=
      min_eq_left (by linarith)
    have hmax :
        max 0 ((n : ℚ) - ((emp.letters_weekday : ℚ) + (emp.letters_sat : ℚ))) = 0 :=
      max_eq_left (by linarith)
    have hzero : round2 (0 : ℚ) = 0 := by
      have := round2_intCast 0
      simpa using this
    have hnQ : (0 : ℚ) < (n : ℚ) := by exact_mod_cast lt_of_not_le hn
    simp only [shiftKpiResult, hmin, hmax]
    rw [if_pos (lt_of_not_le hn)]
    refine ⟨hzero, ?_, ?_, by trivial, by simpa using hoverQ, ?_⟩
    · rw [zero_mul, zero_div]
      rw [min_eq_right (by norm_num : (0:ℚ) ≤ 100), max_self]
      exact hzero
    · rw [zero_mul, zero_div]
      rw [min_eq_right (by norm_num : (0:ℚ) ≤ 100), max_self, zero_div, zero_mul]
      exact hzero
    · rw [hzero, sub_zero]
      intro heq
      rw [heq] at hoverQ
      exact lt_irrefl _ hoverQ



/-- Witness for C10 at `shiftNorm = 30`: the letter sum 35 exceeds the norm,
the result reports zero work and `notWorked = 35 > 30`. -/
theorem shift_branch_overflow_witness :
    (shiftKpiResult empOverflow infoShift 30).days_worked = 0 ∧
    (shiftKpiResult empOverflow infoShift 30).work_percent = 0 ∧
    (shiftKpiResult empOverflow infoShift 30).kpi_final = 0 ∧
    (shiftKpiResult empOverflow infoShift 30).not_worked = 35 ∧
    ((shiftKpiResult empOverflow infoShift 30).days_assigned : ℚ) <
      (shiftKpiResult empOverflow infoShift 30).not_worked := by
  obtain ⟨h1, h2, h3, h4, h5, -⟩ :=
    shift_branch_overflow empOverflow infoShift 30 (shiftKpiResult empOverflow infoShift 30)
      (by norm_num [calcShiftKpi]) (by norm_num [empOverflow])
  exact ⟨h1, h2, h3, by rw [h4]; norm_num [empOverflow], h5⟩

/-- Packaging lemma: a rounded clamped percent is in bounds and both
reported fields arise from one common pre-rounding percent. -/
theorem round2_percent_form (p ks : ℚ) (h0 : 0 ≤ p) (h1 : p ≤ 100) :
    0 ≤ round2 p ∧ round2 p ≤ 100 ∧
    ∃ q : ℚ, 0 ≤ q ∧ q ≤ 100 ∧ round2 p = round2 q ∧
      round2 (p / 100 * ks) = round2 (q / 100 * ks) :=
  ⟨round2_nonneg p h0, round2_le_100 p h1, p, h0, h1, rfl, rfl⟩

/-- C1 (amended): in every emitted result of either branch of either
calculator generation, the reported `workPercent` lies in `[0, 100]`, and
there is one pre-rounding percent `p ∈ [0, 100]` with
`workPercent = round(p, 2)` and `kpiFinal = round(p/100 × kpiSum, 2)`;
`kpiFinal` is computed from `p`, not from the rounded `workPercent` field. -/
theorem work_percent_bounds_and_kpi_final_form
    (emp : EmployeeData) (kpi_info : KPIInfo) (fio : Str) (ks : ℚ) (n : ℤ)
    (res : KPIResult) :
    ((calcDayKpi emp kpi_info n = some res ∨ calcShiftKpi emp kpi_info n = some res) →
      0 ≤ res.work_percent ∧ res.work_percent ≤ 100 ∧
      ∃ p : ℚ, 0 ≤ p ∧ p ≤ 100 ∧ res.work_percent = round2 p ∧
        res.kpi_final = round2 (p / 100 * res.kpi_sum)) ∧
    (0 ≤ (legacyDayResult emp fio ks n).workPercent ∧
      (legacyDayResult emp fio ks n).workPercent ≤ 100 ∧
      ∃ p : ℚ, 0 ≤ p ∧ p ≤ 100 ∧
        (legacyDayResult emp fio ks n).workPercent = round2 p ∧
        (legacyDayResult emp fio ks n).kpiFinal =
          round2 (p / 100 * (legacyDayResult emp fio ks n).kpiSum)) ∧
    (0 ≤ (legacyShiftResult emp fio ks n).workPercent ∧
      (legacyShiftResult emp fio ks n).workPercent ≤ 100 ∧
      ∃ p : ℚ, 0 ≤ p ∧ p ≤ 100 ∧
        (legacyShiftResult emp fio ks n).workPercent = round2 p ∧
        (legacyShiftResult emp fio ks n).kpiFinal =
          round2 (p / 100 * (legacyShiftResult emp fio ks n).kpiSum)) := by
  refine ⟨?_, ?_, ?_⟩
  · rintro (h | h)
    · by_cases hn : n ≤ 0
      · simp [calcDayKpi, hn] at h
      · rw [calcDayKpi, if_neg hn] at h
        obtain rfl : dayKpiResult emp kpi_info n = res := Option.some.inj h
        simp only [dayKpiResult]
        exact round2_percent_form _ _ (le_max_left _ _) (max_le (by norm_num) (min_le_left _ _))
    · by_cases hn : n ≤ 0
      · simp [calcShiftKpi, hn] at h
      · rw [calcShiftKpi, if_neg hn] at h
        obtain rfl : shiftKpiResult emp kpi_info n = res := Option.some.inj h
        simp only [shiftKpiResult]
        exact round2_percent_form _ _ (le_max_left _ _) (max_le (by norm_num) (min_le_left _ _))
  · simp only [legacyDayResult]
    exact round2_percent_form _ _ (by split_ifs <;> linarith) (by split_ifs <;> linarith)
  · simp only [legacyShiftResult]
    exact round2_percent_form _ _ (by split_ifs <;> linarith) (by split_ifs <;> linarith)





/-- Counterexample to C1 as stated: at `dayNorm = 22` with 2 weekday
letters and `kpiSum = 15000` the emitted result has `workPercent = 90.91`
and `kpiFinal = 13636.36`, while `round(workPercent/100 × kpiSum, 2)`
computed from the rounded `workPercent` field is `13636.5 ≠ 13636.36`. -/
theorem work_percent_kpi_final_claim_false :
    calcDayKpi empTwoLetters infoDay15000 22 =
      some (dayKpiResult empTwoLetters infoDay15000 22) ∧
    (dayKpiResult empTwoLetters infoDay15000 22).work_percent = 9091/100 ∧
    (dayKpiResult empTwoLetters infoDay15000 22).kpi_sum = 15000 ∧
    (dayKpiResult empTwoLetters infoDay15000 22).kpi_final = 1363636/100 ∧
    round2 ((dayKpiResult empTwoLetters infoDay15000 22).work_percent / 100 *
        (dayKpiResult empTwoLetters infoDay15000 22).kpi_sum) = 27273/2 ∧
    (1363636/100 : ℚ) ≠ 27273/2 := by
  have hwp : (dayKpiResult empTwoLetters infoDay15000 22).work_percent = 9091/100 := by
    simp only [dayKpiResult, empTwoLetters, infoDay15000]
    norm_num [round2, roundHalfEven, min_def, max_def]
  have hks : (dayKpiResult empTwoLetters infoDay15000 22).kpi_sum = 15000 := rfl
  refine ⟨by norm_num [calcDayKpi], hwp, hks, ?_, ?_, by norm_num⟩
  · simp only [dayKpiResult, empTwoLetters, infoDay15000]
    norm_num [round2, roundHalfEven, min_def, max_def]
  · rw [hwp, hks]
    norm_num [round2, roundHalfEven]

/-- Witness for C1 (amended) at the same concrete input: the reported
percent is within bounds. -/
theorem work_percent_bounds_and_kpi_final_form_witness :
    0 ≤ (dayKpiResult empTwoLetters infoDay15000 22).work_percent ∧
    (dayKpiResult empTwoLetters infoDay15000 22).work_percent ≤ 100 := by
  obtain ⟨h, -⟩ :=
    work_percent_bounds_and_kpi_final_form empTwoLetters infoDay15000 "A".data 15000 22
      (dayKpiResult empTwoLetters infoDay15000 22)
  obtain ⟨h1, h2, -⟩ := h (Or.inl (by norm_num [calcDayKpi]))
  exact ⟨h1, h2⟩

/-- C3 (amended): whenever `totalDaysWorked` is present, the day branch uses
it — clamped to `[0, dayNorm]` — instead of the derived
`dayNorm − lettersWeekday`; the legacy calculator reports that clamp
exactly, the improved calculator reports it rounded to 2 decimals. -/
theorem day_branch_override_clamped (emp : EmployeeData) (kpi_info : KPIInfo)
    (fio : Str) (ks : ℚ) (n : ℤ) (v : ℚ) (res : KPIResult)
    (hv : emp.worked_days_total = some v) :
    (calcDayKpi emp kpi_info n = some res →
      res.days_worked = round2 (max 0 (min v (n : ℚ)))) ∧
    (0 < n → (legacyDayResult emp fio ks n).daysWorked = max 0 (min v (n : ℚ))) := by
  constructor
  · intro h
    by_cases hn : n ≤ 0
    · simp [calcDayKpi, hn] at h
    · rw [calcDayKpi, if_neg hn] at h
      obtain rfl : dayKpiResult emp kpi_info n = res := Option.some.inj h
      simp only [dayKpiResult, hv]
  · intro hn
    have hnQ : (0 : ℚ) < (n : ℚ) := by exact_mod_cast hn
    simp only [legacyDayResult, hv]
    split_ifs with h1 h2 h3
    · linarith
    · rw [min_eq_left (by linarith), max_eq_left (by linarith)]
    · rw [min_eq_right (by linarith), max_eq_right (by linarith)]
    · rw [min_eq_left (by linarith), max_eq_right (by linarith)]





/-- Counterexample to C3 as stated: with `totalDaysWorked = 20.001`,
`dayNorm = 22`, the improved calculator reports `daysWorked = 20`, not the
clamped override value `20.001`. -/
theorem day_branch_override_claim_false :
    calcDayKpi empOverrideFrac infoDayPlain 22 =
      some (dayKpiResult empOverrideFrac infoDayPlain 22) ∧
    (dayKpiResult empOverrideFrac infoDayPlain 22).days_worked = 20 ∧
    max 0 (min (20001/1000 : ℚ) 22) = 20001/1000 ∧
    (20 : ℚ) ≠ 20001/1000 := by
  refine ⟨by norm_num [calcDayKpi], ?_, by norm_num, by norm_num⟩
  simp only [dayKpiResult, empOverrideFrac]
  norm_num [round2, roundHalfEven, min_def, max_def]



/-- Witness for C3 (amended): `totalDaysWorked = 20`, `dayNorm = 22`,
`lettersWeekday = 5` reports `daysWorked = 20` — not the derived 17 — in
both generations. -/
theorem day_branch_override_clamped_witness :
    (dayKpiResult empOverride20 infoDayPlain 22).days_worked = 20 ∧
    (legacyDayResult empOverride20 "A".data 1000 22).daysWorked = 20 := by
  obtain ⟨h1, h2⟩ :=
    day_branch_override_clamped empOverride20 infoDayPlain "A".data 1000 22 20
      (dayKpiResult empOverride20 infoDayPlain 22) rfl
  constructor
  · rw [h1 (by norm_num [calcDayKpi])]
    norm_num [round2, roundHalfEven, min_def, max_def]
  · rw [h2 (by norm_num)]
    norm_num [min_def, max_def]

/-- Lower-casing preserves emptiness. -/
theorem sLower_isEmpty (s : Str) : (sLower s).isEmpty = s.isEmpty := by
  cases s <;> rfl

/-- The improved roster map of a one-row table. -/
theorem buildKpiMap_single (row : KpiRow) (h : (sTrim row.fio).isEmpty = false) :
    buildKpiMap [row] = [(sLower (sTrim row.fio), mkKPIInfo row)] := by
  have h' : ¬ sTrim row.fio = [] := by intro heq; rw [heq] at h; simp at h
  simp [buildKpiMap, alistInsert, h, h']

/-- The legacy roster map of a one-row table. -/
theorem legacyKpiMap_single (row : KpiRow) (h : (sTrim row.fio).isEmpty = false) :
    legacyKpiMap [row] = [(sLower (sTrim row.fio), row)] := by
  have h' : ¬ sTrim row.fio = [] := by intro heq; rw [heq] at h; simp at h
  simp [legacyKpiMap, alistInsert, sLower_isEmpty, h, h']





/-- Counterexample to C5 as stated: with `dayNorm = 0` the improved
calculator emits neither a `KpiResult` nor any `KpiError` for a joined,
non-student day employee — there is no `INVALID_PLAN` error — while the
legacy calculator does emit it. -/
theorem invalid_plan_claim_false :
    calculate [empPlain] [rowDay] 0 30 = ([], []) ∧
    legacyCalculate [empPlain] [rowDay] 0 30 =
      ([], [⟨"A".data, "INVALID_PLAN".data, "Н.ч (назначено дней) <= 0".data⟩]) := by
  constructor <;> decide

/-- C5 (amended): for a record that reaches the schedule branch with a
non-positive operative norm, the legacy calculator emits `INVALID_PLAN` and
skips, while the improved calculator skips silently, producing neither a
`KpiResult` nor a `KpiError`. -/
theorem invalid_plan_divergence (emp : EmployeeData) (row : KpiRow) (nch nd : ℤ)
    (hfe : (sTrim emp.fio).isEmpty = false)
    (hrow : (sTrim row.fio).isEmpty = false)
    (hkey : sLower (sTrim row.fio) = sLower (sTrim emp.fio))
    (hstud : ¬ sTrim (mkKPIInfo row).category_code = "4".data)
    (hstud2 : ¬ sTrim row.categoryCode = "4".data) :
    (sLower (mkKPIInfo row).schedule_type = "day".data →
      legacySchedule row.scheduleType = "day".data → nch ≤ 0 →
      calculate [emp] [row] nch nd = ([], []) ∧
      legacyCalculate [emp] [row] nch nd =
        ([], [⟨sTrim emp.fio, "INVALID_PLAN".data, "Н.ч (назначено дней) <= 0".data⟩])) ∧
    (¬ sLower (mkKPIInfo row).schedule_type = "day".data →
      legacySchedule row.scheduleType = "shift".data → nd ≤ 0 →
      calculate [emp] [row] nch nd = ([], []) ∧
      legacyCalculate [emp] [row] nch nd =
        ([], [⟨sTrim emp.fio, "INVALID_PLAN".data, "Н.д (назначено суточных) <= 0".data⟩])) := by
  constructor
  · intro hsched hlsched hn
    constructor
    · rw [calculate, buildKpiMap_single row hrow]
      simp [improvedGo, improvedStep, alistGet, hfe, hkey, hstud, hsched, calcDayKpi, hn]
    · rw [legacyCalculate, legacyKpiMap_single row hrow]
      simp [legacyGo, legacyStep, alistGet, hfe, hkey, hstud2, hlsched, hn]
  · intro hsched hlsched hn
    constructor
    · rw [calculate, buildKpiMap_single row hrow]
      simp [improvedGo, improvedStep, alistGet, hfe, hkey, hstud, hsched, calcShiftKpi, hn]
    · rw [legacyCalculate, legacyKpiMap_single row hrow]
      simp [legacyGo, legacyStep, alistGet, hfe, hkey, hstud2, hlsched, hn]

/-- Witness for C5 (amended), at the concrete inputs of the counterexample
(day schedule, `dayNorm = 0`). -/
theorem invalid_plan_divergence_witness :
    calculate [empPlain] [rowDay] 0 30 = ([], []) ∧
    legacyCalculate [empPlain] [rowDay] 0 30 =
      ([], [⟨sTrim empPlain.fio, "INVALID_PLAN".data, "Н.ч (назначено дней) <= 0".data⟩]) :=
  (invalid_plan_divergence empPlain rowDay 0 30 (by decide) (by decide) (by decide)
      (by decide) (by decide)).1 (by decide) (by decide) (by decide)



/-- Counterexample to C6 as stated: the improved calculator routes the
unrecognized non-blank schedule type `"x"` through the shift branch (with
`shiftNorm` as the operative norm), not the day branch; only the legacy
calculator treats it as `day`. -/
theorem schedule_default_claim_false :
    (calculate [empPlain] [rowUnrecognized] 22 30).1.map
        (fun r => (r.schedule_type, r.days_assigned)) = [("shift".data, (30 : ℤ))] ∧
    (legacyCalculate [empPlain] [rowUnrecognized] 22 30).1.map
        (fun r => (r.scheduleType, r.daysAssigned)) = [("day".data, (22 : ℤ))] := by
  constructor <;> decide

/-- C6 (amended): a blank `scheduleType` defaults to `day` in both
calculators; a non-blank unrecognized value is treated as `day` by the
legacy calculator but routed through the shift branch (operative norm
`shiftNorm`) by the improved calculator. -/
theorem schedule_type_default_divergence (emp : EmployeeData) (row : KpiRow)
    (nch nd : ℤ)
    (hfe : (sTrim emp.fio).isEmpty = false)
    (hrow : (sTrim row.fio).isEmpty = false)
    (hkey : sLower (sTrim row.fio) = sLower (sTrim emp.fio))
    (hstud : ¬ sTrim (mkKPIInfo row).category_code = "4".data)
    (hstud2 : ¬ sTrim row.categoryCode = "4".data) :
    (sLower (sTrim row.scheduleType) = [] →
      (mkKPIInfo row).schedule_type = "day".data) ∧
    (sLower (sTrim row.scheduleType) ≠ "day".data →
      sLower (sTrim row.scheduleType) ≠ "shift".data →
      legacySchedule row.scheduleType = "day".data) ∧
    (¬ sLower (mkKPIInfo row).schedule_type = "day".data → 0 < nd →
      (calculate [emp] [row] nch nd).1.map
          (fun r => (r.schedule_type, r.days_assigned)) = [("shift".data, nd)]) ∧
    (legacySchedule row.scheduleType = "day".data → 0 < nch →
      (legacyCalculate [emp] [row] nch nd).1.map
          (fun r => (r.scheduleType, r.daysAssigned)) = [("day".data, nch)]) := by
  refine ⟨?_, ?_, ?_, ?_⟩
  · intro h
    simp [mkKPIInfo, h]
  · intro h1 h2
    simp [legacySchedule, h1, h2]
  · intro hsched hnd
    rw [calculate, buildKpiMap_single row hrow]
    simp [improvedGo, improvedStep, alistGet, hfe, hkey, hstud, hsched, calcShiftKpi,
      not_le.mpr hnd, shiftKpiResult]
  · intro hlsched hnch
    rw [legacyCalculate, legacyKpiMap_single row hrow]
    simp [legacyGo, legacyStep, alistGet, hfe, hkey, hstud2, hlsched,
      not_le.mpr hnch, legacyDayResult]

/-- Witness for C6 (amended), at the concrete schedule type `"x"`. -/
theorem schedule_type_default_divergence_witness :
    (calculate [empPlain] [rowUnrecognized] 22 30).1.map
        (fun r => (r.schedule_type, r.days_assigned)) = [("shift".data, (30 : ℤ))] ∧
    (legacyCalculate [empPlain] [rowUnrecognized] 22 30).1.map
        (fun r => (r.scheduleType, r.daysAssigned)) = [("day".data, (22 : ℤ))] := by
  obtain ⟨-, -, h3, h4⟩ :=
    schedule_type_default_divergence empPlain rowUnrecognized 22 30 (by decide) (by decide)
      (by decide) (by decide) (by decide)
  exact ⟨h3 (by decide) (by decide), h4 (by decide) (by decide)⟩





theorem calcDayKpi_fio (e : EmployeeData) (i : KPIInfo) (n : ℤ) (r : KPIResult)
    (h : calcDayKpi e i n = some r) : r.fio = e.fio := by
  by_cases hn : n ≤ 0
  · simp [calcDayKpi, hn] at h
  · rw [calcDayKpi, if_neg hn] at h
    obtain rfl : dayKpiResult e i n = r := Option.some.inj h
    rfl

theorem calcShiftKpi_fio (e : EmployeeData) (i : KPIInfo) (n : ℤ) (r : KPIResult)
    (h : calcShiftKpi e i n = some r) : r.fio = e.fio := by
  by_cases hn : n ≤ 0
  · simp [calcShiftKpi, hn] at h
  · rw [calcShiftKpi, if_neg hn] at h
    obtain rfl : shiftKpiResult e i n = r := Option.some.inj h
    rfl

/-- Behaviour of one loop iteration of the improved calculator with respect
to the dedup set: an emitted result or non-`DUPLICATE` error carries a key
that was not yet seen and is recorded; the set only ever grows by that key. -/
theorem improvedStep_spec (M : List (Str × KPIInfo)) (a b : ℤ)
    (seen : List Str) (emp : EmployeeData) :
    (∀ r, (improvedStep M a b seen emp).1 = CalcStep.res r →
        resKey r ∉ seen ∧ (improvedStep M a b seen emp).2 = resKey r :: seen) ∧
    (∀ e, (improvedStep M a b seen emp).1 = CalcStep.err e →
        (e.type = "DUPLICATE".data ∧ (improvedStep M a b seen emp).2 = seen) ∨
        (e.type ≠ "DUPLICATE".data ∧ errKey e ∉ seen ∧
          (improvedStep M a b seen emp).2 = errKey e :: seen)) ∧
    ((improvedStep M a b seen emp).2 = seen ∨
      ∃ k, k ∉ seen ∧ (improvedStep M a b seen emp).2 = k :: seen) := by
  simp only [improvedStep]
  split
  · exact ⟨fun r hr => by simp at hr, fun e he => by simp at he, Or.inl rfl⟩
  · split
    · refine ⟨fun r hr => by simp at hr, fun e he => ?_, Or.inl rfl⟩
      injection he with he'
      subst he'
      exact Or.inl ⟨rfl, rfl⟩
    · next h2 =>
        split
        · refine ⟨fun r hr => by simp at hr, fun e he => ?_, Or.inr ⟨_, h2, rfl⟩⟩
          injection he with he'
          subst he'
          exact Or.inr ⟨by show "NO_KPI_MAPPING".data ≠ "DUPLICATE".data; decide, h2, rfl⟩
        · next info hget =>
            split
            · refine ⟨fun r hr => by simp at hr, fun e he => ?_, Or.inr ⟨_, h2, rfl⟩⟩
              injection he with he'
              subst he'
              exact Or.inr ⟨by show "STUDENT".data ≠ "DUPLICATE".data; decide, h2, rfl⟩
            · split
              · next r' hbr =>
                  have hfio : r'.fio = emp.fio := by
                    by_cases h4 : sLower info.schedule_type = "day".data
                    · rw [if_pos h4] at hbr
                      exact calcDayKpi_fio emp info a r' hbr
                    · rw [if_neg h4] at hbr
                      exact calcShiftKpi_fio emp info b r' hbr
                  have hkey : resKey r' = sLower (sTrim emp.fio) := by
                    rw [resKey, hfio]
                  refine ⟨fun r hr => ?_, fun e he => by simp at he, Or.inr ⟨_, h2, rfl⟩⟩
                  injection hr with hr'
                  subst hr'
                  refine ⟨by rw [hkey]; exact h2, by rw [hkey]⟩
              · exact ⟨fun r hr => by simp at hr, fun e he => by simp at he,
                  Or.inr ⟨_, h2, rfl⟩⟩

/-- Invariant of the improved calculator loop: relative to any starting
dedup set, emitted result keys and non-`DUPLICATE` error keys are fresh,
pairwise distinct, and mutually disjoint. -/
theorem improvedGo_unique (M : List (Str × KPIInfo)) (a b : ℤ) :
    ∀ (emps : List EmployeeData) (seen : List Str),
      (∀ r ∈ (improvedGo M a b emps seen).1, resKey r ∉ seen) ∧
      (∀ e ∈ (improvedGo M a b emps seen).2, e.type ≠ "DUPLICATE".data → errKey e ∉ seen) ∧
      ((improvedGo M a b emps seen).1.map resKey).Nodup ∧
      (((improvedGo M a b emps seen).2.filter
          (fun e => decide (e.type ≠ "DUPLICATE".data))).map errKey).Nodup ∧
      (∀ r ∈ (improvedGo M a b emps seen).1, ∀ e ∈ (improvedGo M a b emps seen).2,
        e.type ≠ "DUPLICATE".data → resKey r ≠ errKey e) := by
  intro emps
  induction emps with
  | nil =>
    intro seen
    simp [improvedGo]
  | cons emp rest ih =>
    intro seen
    obtain ⟨sres, serr, sseen⟩ := improvedStep_spec M a b seen emp
    rcases hstep : improvedStep M a b seen emp with ⟨st, seen2⟩
    rw [hstep] at sres serr sseen
    obtain ⟨ih1, ih2, ih3, ih4, ih5⟩ := ih seen2
    cases st with
    | res r =>
      simp only [improvedGo, hstep]
      obtain ⟨hnot, hseen2⟩ := sres r rfl
      have hs2 : seen2 = resKey r :: seen := hseen2
      have hmem : ∀ x : Str, x ∉ seen2 → x ∉ seen := by
        rw [hs2]
        intro x hx hxs
        exact hx (List.mem_cons_of_mem _ hxs)
      have hne : ∀ x : Str, x ∉ seen2 → x ≠ resKey r := by
        rw [hs2]
        intro x hx heq
        exact hx (by rw [heq]; exact List.mem_cons_self _ _)
      refine ⟨?_, ?_, ?_, ih4, ?_⟩
      · intro r' hr'
        rcases List.mem_cons.mp hr' with rfl | hr'
        · exact hnot
        · exact hmem _ (ih1 r' hr')
      · intro e he htype
        exact hmem _ (ih2 e he htype)
      · rw [List.map_cons, List.nodup_cons]
        refine ⟨?_, ih3⟩
        intro hmem'
        obtain ⟨r', hr', heq⟩ := List.mem_map.mp hmem'
        exact hne _ (ih1 r' hr') heq
      · intro r' hr' e he htype
        rcases List.mem_cons.mp hr' with rfl | hr'
        · exact (hne _ (ih2 e he htype)).symm
        · exact ih5 r' hr' e he htype
    | err e =>
      simp only [improvedGo, hstep]
      rcases serr e rfl with ⟨htype, hseen2⟩ | ⟨htype, hnot, hseen2⟩
      · have hs2 : seen2 = seen := hseen2
        subst hs2
        refine ⟨ih1, ?_, ih3, ?_, ?_⟩
        · intro e' he' htype'
          rcases List.mem_cons.mp he' with rfl | he'
          · exact absurd htype htype'
          · exact ih2 e' he' htype'
        · rw [List.filter_cons]
          have hp : (decide (e.type ≠ "DUPLICATE".data)) = false := by simp [htype]
          rw [hp]
          simp only [Bool.false_eq_true, if_false]
          exact ih4
        · intro r' hr' e' he' htype'
          rcases List.mem_cons.mp he' with rfl | he'
          · exact absurd htype htype'
          · exact ih5 r' hr' e' he' htype'
      · have hs2 : seen2 = errKey e :: seen := hseen2
        have hmem : ∀ x : Str, x ∉ seen2 → x ∉ seen := by
          rw [hs2]
          intro x hx hxs
          exact hx (List.mem_cons_of_mem _ hxs)
        have hne : ∀ x : Str, x ∉ seen2 → x ≠ errKey e := by
          rw [hs2]
          intro x hx heq
          exact hx (by rw [heq]; exact List.mem_cons_self _ _)
        refine ⟨?_, ?_, ih3, ?_, ?_⟩
        · intro r' hr'
          exact hmem _ (ih1 r' hr')
        · intro e' he' htype'
          rcases List.mem_cons.mp he' with rfl | he'
          · exact hnot
          · exact hmem _ (ih2 e' he' htype')
        · rw [List.filter_cons]
          have hp : (decide (e.type ≠ "DUPLICATE".data)) = true := by simp [htype]
          rw [hp]
          simp only [if_true]
          rw [List.map_cons, List.nodup_cons]
          refine ⟨?_, ih4⟩
          intro hmem'
          obtain ⟨e', he', heq⟩ := List.mem_map.mp hmem'
          obtain ⟨he'', hp'⟩ := List.mem_filter.mp he'
          exact hne _ (ih2 e' he'' (of_decide_eq_true hp')) heq
        · intro r' hr' e' he' htype'
          rcases List.mem_cons.mp he' with rfl | he'
          · exact hne _ (ih1 r' hr')
          · exact ih5 r' hr' e' he' htype'
    | skip =>
      simp only [improvedGo, hstep]
      have hmem : ∀ x : Str, x ∉ seen2 → x ∉ seen := by
        rcases sseen with hs | ⟨k, hk, hs⟩
        · have hs2 : seen2 = seen := hs
          intro x hx
          rw [hs2] at hx
          exact hx
        · have hs2 : seen2 = k :: seen := hs
          rw [hs2]
          intro x hx hxs
          exact hx (List.mem_cons_of_mem _ hxs)
      exact ⟨fun r hr => hmem _ (ih1 r hr), fun e he ht => hmem _ (ih2 e he ht),
        ih3, ih4, ih5⟩

/-- C4 (amended): within one run of `KPICalculator.calculate`, each
distinct employee name (trimmed, case-insensitive) yields at most one
`KpiResult`, at most one non-`DUPLICATE` `KpiError`, and never one of each;
only `DUPLICATE` errors — one per repeated occurrence of an
already-processed name — can coexist with that name's result or error. -/
theorem calculate_unique_names (employees : List EmployeeData)
    (kpi_table : List KpiRow) (nch_day nd_shift : ℤ) :
    ((calculate employees kpi_table nch_day nd_shift).1.map resKey).Nodup ∧
    (((calculate employees kpi_table nch_day nd_shift).2.filter
        (fun e => decide (e.type ≠ "DUPLICATE".data))).map errKey).Nodup ∧
    (∀ r ∈ (calculate employees kpi_table nch_day nd_shift).1,
      ∀ e ∈ (calculate employees kpi_table nch_day nd_shift).2,
        e.type ≠ "DUPLICATE".data → resKey r ≠ errKey e) := by
  obtain ⟨-, -, h3, h4, h5⟩ :=
    improvedGo_unique (buildKpiMap kpi_table) nch_day nd_shift employees []
  exact ⟨h3, h4, h5⟩



/-- Counterexample to C4 as stated: the names `A` and `a` agree after
trimming and lower-casing, yet one run emits both a `KpiResult` (for the
first occurrence) and a `DUPLICATE` `KpiError` (for the second) for that
one name — one of each, contradicting the claimed never-both invariant. -/
theorem unique_names_claim_false :
    (calculate [empPlain, empPlainLower] [rowDay] 22 30).1.map KPIResult.fio = ["A".data] ∧
    (calculate [empPlain, empPlainLower] [rowDay] 22 30).2.map (fun e => (e.fio, e.type)) =
      [("a".data, "DUPLICATE".data)] ∧
    sLower (sTrim "A".data) = sLower (sTrim "a".data) := by
  refine ⟨by decide, by decide, by decide⟩

/-- Witness for C4 (amended) at the duplicate-name run. -/
theorem calculate_unique_names_witness :
    ((calculate [empPlain, empPlainLower] [rowDay] 22 30).1.map resKey).Nodup ∧
    (((calculate [empPlain, empPlainLower] [rowDay] 22 30).2.filter
        (fun e => decide (e.type ≠ "DUPLICATE".data))).map errKey).Nodup ∧
    (∀ r ∈ (calculate [empPlain, empPlainLower] [rowDay] 22 30).1,
      ∀ e ∈ (calculate [empPlain, empPlainLower] [rowDay] 22 30).2,
        e.type ≠ "DUPLICATE".data → resKey r ≠ errKey e) :=
  calculate_unique_names [empPlain, empPlainLower] [rowDay] 22 30
